import Mathlib

/-!
Verification development for the MOS 6530 RRIOT emulator header
(`src/chips/m6530.h`).  Machine integers (`uint8_t`, `uint16_t`, `uint64_t`)
are modelled as `Nat`, with explicit masking and `% 2 ^ w` where the C code
wraps.  The header's implementation section (`CHIPS_IMPL`) is empty, so the
state-transition operations (`tick`, `reset`) are modelled from the design
spec; every such definition is marked `Modelled from the spec:` in its doc
comment.  Everything else is translated directly from the header.
-/

-- ## Pin positions (m6530.h lines 122-169)

/-- `#define M6530_PIN_A0 (0)` -/
def M6530_PIN_A0 : Nat := 0

/-- `#define M6530_PIN_A1 (1)` -/
def M6530_PIN_A1 : Nat := 1

/-- `#define M6530_PIN_A2 (2)` -/
def M6530_PIN_A2 : Nat := 2

/-- `#define M6530_PIN_A3 (3)` -/
def M6530_PIN_A3 : Nat := 3

/-- `#define M6530_PIN_A4 (4)` -/
def M6530_PIN_A4 : Nat := 4

/-- `#define M6530_PIN_A5 (5)` -/
def M6530_PIN_A5 : Nat := 5

/-- `#define M6530_PIN_A6 (6)` -/
def M6530_PIN_A6 : Nat := 6

/-- `#define M6530_PIN_A7 (7)` -/
def M6530_PIN_A7 : Nat := 7

/-- `#define M6530_PIN_A8 (8)` -/
def M6530_PIN_A8 : Nat := 8

/-- `#define M6530_PIN_A9 (9)` -/
def M6530_PIN_A9 : Nat := 9

/-- `#define M6530_PIN_RS0 (10)` (RAM Select) -/
def M6530_PIN_RS0 : Nat := 10

/-- `#define M6530_PIN_CS1 (42)` (Chip Select 1) -/
def M6530_PIN_CS1 : Nat := 42

/-- `#define M6530_PIN_CS2 (41)` (Chip Select 2) -/
def M6530_PIN_CS2 : Nat := 41

/-- `#define M6530_PIN_RW (11)` -/
def M6530_PIN_RW : Nat := 11

/-- `#define M6530_PIN_IRQ (43)` -/
def M6530_PIN_IRQ : Nat := 43

/-- `#define M6530_PIN_RES (12)` -/
def M6530_PIN_RES : Nat := 12

/-- `#define M6530_PIN_D0 (16)` -/
def M6530_PIN_D0 : Nat := 16

/-- `#define M6530_PIN_D1 (17)` -/
def M6530_PIN_D1 : Nat := 17

/-- `#define M6530_PIN_D2 (18)` -/
def M6530_PIN_D2 : Nat := 18

/-- `#define M6530_PIN_D3 (19)` -/
def M6530_PIN_D3 : Nat := 19

/-- `#define M6530_PIN_D4 (20)` -/
def M6530_PIN_D4 : Nat := 20

/-- `#define M6530_PIN_D5 (21)` -/
def M6530_PIN_D5 : Nat := 21

/-- `#define M6530_PIN_D6 (22)` -/
def M6530_PIN_D6 : Nat := 22

/-- `#define M6530_PIN_D7 (23)` -/
def M6530_PIN_D7 : Nat := 23

/-- `#define M6530_PIN_PA0 (24)` -/
def M6530_PIN_PA0 : Nat := 24

/-- `#define M6530_PIN_PA1 (25)` -/
def M6530_PIN_PA1 : Nat := 25

/-- `#define M6530_PIN_PA2 (26)` -/
def M6530_PIN_PA2 : Nat := 26

/-- `#define M6530_PIN_PA3 (27)` -/
def M6530_PIN_PA3 : Nat := 27

/-- `#define M6530_PIN_PA4 (28)` -/
def M6530_PIN_PA4 : Nat := 28

/-- `#define M6530_PIN_PA5 (29)` -/
def M6530_PIN_PA5 : Nat := 29

/-- `#define M6530_PIN_PA6 (30)` -/
def M6530_PIN_PA6 : Nat := 30

/-- `#define M6530_PIN_PA7 (31)` -/
def M6530_PIN_PA7 : Nat := 31

/-- `#define M6530_PIN_PB0 (32)` -/
def M6530_PIN_PB0 : Nat := 32

/-- `#define M6530_PIN_PB1 (33)` -/
def M6530_PIN_PB1 : Nat := 33

/-- `#define M6530_PIN_PB2 (34)` -/
def M6530_PIN_PB2 : Nat := 34

/-- `#define M6530_PIN_PB3 (35)` -/
def M6530_PIN_PB3 : Nat := 35

/-- `#define M6530_PIN_PB4 (36)` -/
def M6530_PIN_PB4 : Nat := 36

/-- `#define M6530_PIN_PB5 (37)` -/
def M6530_PIN_PB5 : Nat := 37

/-- `#define M6530_PIN_PB6 (38)` -/
def M6530_PIN_PB6 : Nat := 38

/-- `#define M6530_PIN_PB7 (39)` -/
def M6530_PIN_PB7 : Nat := 39

-- ## Pin bit masks (m6530.h lines 172-215)
-- NOTE: the header's `M6530_RS0`, `M6530_CS1` and `M6530_CS2` macros
-- (lines 183-185) are deliberately NOT embedded here: their bodies read
-- `(1ULL<<6530_PIN_RS0)` etc., referencing the ill-formed token
-- `6530_PIN_RS0` (the `M` prefix is missing), so any C translation unit
-- that expands them fails to compile and they denote no value.

/-- `#define M6530_A0 (1ULL<<M6530_PIN_A0)` -/
def M6530_A0 : Nat := 1 <<< M6530_PIN_A0

/-- `#define M6530_A1 (1ULL<<M6530_PIN_A1)` -/
def M6530_A1 : Nat := 1 <<< M6530_PIN_A1

/-- `#define M6530_A9 (1ULL<<M6530_PIN_A9)` -/
def M6530_A9 : Nat := 1 <<< M6530_PIN_A9

/-- `#define M6530_RES (1ULL<<M6530_PIN_RES)` -/
def M6530_RES : Nat := 1 <<< M6530_PIN_RES

/-- `#define M6530_D0 (1ULL<<M6530_PIN_D0)` -/
def M6530_D0 : Nat := 1 <<< M6530_PIN_D0

/-- `#define M6530_D1 (1ULL<<M6530_PIN_D1)` -/
def M6530_D1 : Nat := 1 <<< M6530_PIN_D1

/-- `#define M6530_D2 (1ULL<<M6530_PIN_D2)` -/
def M6530_D2 : Nat := 1 <<< M6530_PIN_D2

/-- `#define M6530_D3 (1ULL<<M6530_PIN_D3)` -/
def M6530_D3 : Nat := 1 <<< M6530_PIN_D3

/-- `#define M6530_D4 (1ULL<<M6530_PIN_D4)` -/
def M6530_D4 : Nat := 1 <<< M6530_PIN_D4

/-- `#define M6530_D5 (1ULL<<M6530_PIN_D5)` -/
def M6530_D5 : Nat := 1 <<< M6530_PIN_D5

/-- `#define M6530_D6 (1ULL<<M6530_PIN_D6)` -/
def M6530_D6 : Nat := 1 <<< M6530_PIN_D6

/-- `#define M6530_D7 (1ULL<<M6530_PIN_D7)` -/
def M6530_D7 : Nat := 1 <<< M6530_PIN_D7

/-- `#define M6530_DB_PINS (0xFF0000ULL)` -/
def M6530_DB_PINS : Nat := 0xFF0000

/-- `#define M6530_RW (1ULL<<M6530_PIN_RW)` -/
def M6530_RW : Nat := 1 <<< M6530_PIN_RW

/-- `#define M6530_IRQ (1ULL<<M6530_PIN_IRQ)` -/
def M6530_IRQ : Nat := 1 <<< M6530_PIN_IRQ

/-- `#define M6530_PA0 (1ULL<<M6530_PIN_PA0)` (and likewise PA1..PA7) -/
def M6530_PA0 : Nat := 1 <<< M6530_PIN_PA0

/-- `#define M6530_PA7 (1ULL<<M6530_PIN_PA7)` -/
def M6530_PA7 : Nat := 1 <<< M6530_PIN_PA7

/-- `#define M6530_PB0 (1ULL<<M6530_PIN_PB0)` (and likewise PB1..PB7) -/
def M6530_PB0 : Nat := 1 <<< M6530_PIN_PB0

/-- `#define M6530_PB7 (1ULL<<M6530_PIN_PB7)` -/
def M6530_PB7 : Nat := 1 <<< M6530_PIN_PB7

-- ## Data-bus / port accessor macros (m6530.h lines 263-276)

/-- `#define M6530_GET_DATA(p) ((uint8_t)((p)>>16))` -/
def M6530_GET_DATA (p : Nat) : Nat := (p >>> 16) % 256

/-- `#define M6530_SET_DATA(p,d) {p=(((p)&~0xFF0000ULL)|(((d)<<16)&0xFF0000ULL));}`
with `~0xFF0000ULL = 0xFFFFFFFFFF00FFFFULL` at 64 bits. -/
def M6530_SET_DATA (p d : Nat) : Nat :=
  (p &&& 0xFFFFFFFFFF00FFFF) ||| ((d <<< 16) &&& 0xFF0000)

/-- `#define M6530_GET_PA(p) ((uint8_t)((p)>>24))` -/
def M6530_GET_PA (p : Nat) : Nat := (p >>> 24) % 256

/-- `#define M6530_GET_PB(p) ((uint8_t)((p)>>32))` -/
def M6530_GET_PB (p : Nat) : Nat := (p >>> 32) % 256

/-- `#define M6530_SET_PA(p,a) {p=((p)&0xFFFFFFFF00FFFFFFULL)|(((a)&0xFFULL)<<24);}` -/
def M6530_SET_PA (p a : Nat) : Nat :=
  (p &&& 0xFFFFFFFF00FFFFFF) ||| ((a &&& 0xFF) <<< 24)

/-- `#define M6530_SET_PB(p,b) {p=((p)&0xFFFFFF00FFFFFFFFULL)|(((b)&0xFFULL)<<32);}` -/
def M6530_SET_PB (p b : Nat) : Nat :=
  (p &&& 0xFFFFFF00FFFFFFFF) ||| ((b &&& 0xFF) <<< 32)

/-- `#define M6530_SET_PAB(p,a,b)
{p=((p)&0xFFFFFF0000FFFFFFULL)|(((a)&0xFFULL)<<24)|(((b)&0xFFULL)<<32);}` -/
def M6530_SET_PAB (p a b : Nat) : Nat :=
  (p &&& 0xFFFFFF0000FFFFFF) ||| ((a &&& 0xFF) <<< 24) ||| ((b &&& 0xFF) <<< 32)

-- ## Bit-level helper lemmas

/-- A contiguous field mask `(2 ^ w - 1) <<< s` has exactly the bits `s..s+w-1`. -/
theorem testBit_field (w s i : Nat) :
    Nat.testBit ((2 ^ w - 1) <<< s) i = decide (s ≤ i ∧ i < s + w) := by
  rw [Nat.testBit_shiftLeft, Nat.testBit_two_pow_sub_one, ← Bool.decide_and]
  exact decide_eq_decide.mpr (by omega)

/-- Bits of the C constant `~0xFF0000ULL`. -/
theorem testBit_notData (i : Nat) :
    Nat.testBit 0xFFFFFFFFFF00FFFF i = decide (i < 16 ∨ (24 ≤ i ∧ i < 64)) := by
  rw [show (0xFFFFFFFFFF00FFFF : Nat) = (2 ^ 16 - 1) ||| ((2 ^ 40 - 1) <<< 24) from by decide,
    Nat.testBit_or, Nat.testBit_two_pow_sub_one, testBit_field, ← Bool.decide_or]

/-- Bits of the port-A keep mask `0xFFFFFFFF00FFFFFFULL`. -/
theorem testBit_notPA (i : Nat) :
    Nat.testBit 0xFFFFFFFF00FFFFFF i = decide (i < 24 ∨ (32 ≤ i ∧ i < 64)) := by
  rw [show (0xFFFFFFFF00FFFFFF : Nat) = (2 ^ 24 - 1) ||| ((2 ^ 32 - 1) <<< 32) from by decide,
    Nat.testBit_or, Nat.testBit_two_pow_sub_one, testBit_field, ← Bool.decide_or]

/-- Bits of the port-B keep mask `0xFFFFFF00FFFFFFFFULL`. -/
theorem testBit_notPB (i : Nat) :
    Nat.testBit 0xFFFFFF00FFFFFFFF i = decide (i < 32 ∨ (40 ≤ i ∧ i < 64)) := by
  rw [show (0xFFFFFF00FFFFFFFF : Nat) = (2 ^ 32 - 1) ||| ((2 ^ 24 - 1) <<< 40) from by decide,
    Nat.testBit_or, Nat.testBit_two_pow_sub_one, testBit_field, ← Bool.decide_or]

/-- Bits of the combined port keep mask `0xFFFFFF0000FFFFFFULL`. -/
theorem testBit_notPAB (i : Nat) :
    Nat.testBit 0xFFFFFF0000FFFFFF i = decide (i < 24 ∨ (40 ≤ i ∧ i < 64)) := by
  rw [show (0xFFFFFF0000FFFFFF : Nat) = (2 ^ 24 - 1) ||| ((2 ^ 24 - 1) <<< 40) from by decide,
    Nat.testBit_or, Nat.testBit_two_pow_sub_one, testBit_field, ← Bool.decide_or]

/-- Bits of the data-bus field mask `0xFF0000ULL`. -/
theorem testBit_dataMask (i : Nat) :
    Nat.testBit 0xFF0000 i = decide (16 ≤ i ∧ i < 24) := by
  rw [show (0xFF0000 : Nat) = (2 ^ 8 - 1) <<< 16 from by decide, testBit_field]

/-- Bits of the value spliced into the data-bus field by `M6530_SET_DATA`. -/
theorem testBit_dataSplice (v i : Nat) :
    ((v <<< 16) &&& 0xFF0000).testBit i
      = (decide (16 ≤ i ∧ i < 24) && v.testBit (i - 16)) := by
  rw [Nat.testBit_and, Nat.testBit_shiftLeft, testBit_dataMask]
  by_cases h1 : 16 ≤ i
  · have e1 : decide (i ≥ 16) = true := by simp only [decide_eq_true_eq]; exact h1
    rw [e1, Bool.true_and, Bool.and_comm]
  · have e1 : decide (i ≥ 16) = false := by simp only [decide_eq_false_iff_not]; exact h1
    have e2 : decide (16 ≤ i ∧ i < 24) = false := by
      simp only [decide_eq_false_iff_not]; omega
    rw [e1, e2, Bool.false_and, Bool.false_and]

/-- Bits of the byte `(v &&& 0xFF) <<< s` spliced by the port mutators. -/
theorem testBit_byteSplice (v s i : Nat) :
    ((v &&& 0xFF) <<< s).testBit i
      = (decide (s ≤ i ∧ i < s + 8) && v.testBit (i - s)) := by
  rw [Nat.testBit_shiftLeft, Nat.testBit_and,
    show (0xFF : Nat) = 2 ^ 8 - 1 from by decide, Nat.testBit_two_pow_sub_one]
  by_cases h1 : s ≤ i
  · by_cases h2 : i < s + 8
    · have e1 : decide (i ≥ s) = true := by simp only [decide_eq_true_eq]; exact h1
      have e2 : decide (i - s < 8) = true := by simp only [decide_eq_true_eq]; omega
      have e3 : decide (s ≤ i ∧ i < s + 8) = true := by
        simp only [decide_eq_true_eq]; exact ⟨h1, h2⟩
      rw [e1, e2, e3, Bool.true_and, Bool.true_and, Bool.and_true]
    · have e2 : decide (i - s < 8) = false := by simp only [decide_eq_false_iff_not]; omega
      have e3 : decide (s ≤ i ∧ i < s + 8) = false := by
        simp only [decide_eq_false_iff_not]; omega
      rw [e2, e3, Bool.and_false, Bool.and_false, Bool.false_and]
  · have e1 : decide (i ≥ s) = false := by simp only [decide_eq_false_iff_not]; exact h1
    have e3 : decide (s ≤ i ∧ i < s + 8) = false := by
      simp only [decide_eq_false_iff_not]; omega
    rw [e1, e3, Bool.false_and, Bool.false_and]

/-- Bits at or above 64 of a value below `2 ^ 64` are clear. -/
theorem testBit_ge_64 (p i : Nat) (hp : p < 2 ^ 64) (hi : 64 ≤ i) :
    p.testBit i = false :=
  Nat.testBit_lt_two_pow
    (lt_of_lt_of_le hp (Nat.pow_le_pow_right (by omega) hi))

-- ## Claim C2: the SET macros touch only their own field

/-- C2: for every 64-bit pin vector `p` and all spliced values, the field
mutators modify only the bits of their own field and leave every other bit of
`p` unchanged: `M6530_SET_DATA` changes only bits 16..23, `M6530_SET_PA` only
bits 24..31, `M6530_SET_PB` only bits 32..39, and `M6530_SET_PAB` only bits
24..39. -/
theorem C2_set_macros_touch_only_their_field (p v a b : Nat) (hp : p < 2 ^ 64) :
    (∀ i, ¬(16 ≤ i ∧ i < 24) → (M6530_SET_DATA p v).testBit i = p.testBit i) ∧
    (∀ i, ¬(24 ≤ i ∧ i < 32) → (M6530_SET_PA p v).testBit i = p.testBit i) ∧
    (∀ i, ¬(32 ≤ i ∧ i < 40) → (M6530_SET_PB p v).testBit i = p.testBit i) ∧
    (∀ i, ¬(24 ≤ i ∧ i < 40) → (M6530_SET_PAB p a b).testBit i = p.testBit i) := by
  refine ⟨fun i hi => ?_, fun i hi => ?_, fun i hi => ?_, fun i hi => ?_⟩
  · rw [M6530_SET_DATA, Nat.testBit_or, Nat.testBit_and, testBit_notData,
      testBit_dataSplice]
    have e2 : decide (16 ≤ i ∧ i < 24) = false := by
      simp only [decide_eq_false_iff_not]; omega
    rw [e2, Bool.false_and, Bool.or_false]
    by_cases h64 : i < 64
    · have e1 : decide (i < 16 ∨ (24 ≤ i ∧ i < 64)) = true := by
        simp only [decide_eq_true_eq]; omega
      rw [e1, Bool.and_true]
    · have e1 : decide (i < 16 ∨ (24 ≤ i ∧ i < 64)) = false := by
        simp only [decide_eq_false_iff_not]; omega
      rw [e1, Bool.and_false, testBit_ge_64 p i hp (by omega)]
  · rw [M6530_SET_PA, Nat.testBit_or, Nat.testBit_and, testBit_notPA,
      testBit_byteSplice]
    have e2 : decide (24 ≤ i ∧ i < 24 + 8) = false := by
      simp only [decide_eq_false_iff_not]; omega
    rw [e2, Bool.false_and, Bool.or_false]
    by_cases h64 : i < 64
    · have e1 : decide (i < 24 ∨ (32 ≤ i ∧ i < 64)) = true := by
        simp only [decide_eq_true_eq]; omega
      rw [e1, Bool.and_true]
    · have e1 : decide (i < 24 ∨ (32 ≤ i ∧ i < 64)) = false := by
        simp only [decide_eq_false_iff_not]; omega
      rw [e1, Bool.and_false, testBit_ge_64 p i hp (by omega)]
  · rw [M6530_SET_PB, Nat.testBit_or, Nat.testBit_and, testBit_notPB,
      testBit_byteSplice]
    have e2 : decide (32 ≤ i ∧ i < 32 + 8) = false := by
      simp only [decide_eq_false_iff_not]; omega
    rw [e2, Bool.false_and, Bool.or_false]
    by_cases h64 : i < 64
    · have e1 : decide (i < 32 ∨ (40 ≤ i ∧ i < 64)) = true := by
        simp only [decide_eq_true_eq]; omega
      rw [e1, Bool.and_true]
    · have e1 : decide (i < 32 ∨ (40 ≤ i ∧ i < 64)) = false := by
        simp only [decide_eq_false_iff_not]; omega
      rw [e1, Bool.and_false, testBit_ge_64 p i hp (by omega)]
  · rw [M6530_SET_PAB, Nat.testBit_or, Nat.testBit_or, Nat.testBit_and,
      testBit_notPAB, testBit_byteSplice, testBit_byteSplice]
    have e2 : decide (24 ≤ i ∧ i < 24 + 8) = false := by
      simp only [decide_eq_false_iff_not]; omega
    have e3 : decide (32 ≤ i ∧ i < 32 + 8) = false := by
      simp only [decide_eq_false_iff_not]; omega
    rw [e2, e3, Bool.false_and, Bool.false_and, Bool.or_false, Bool.or_false]
    by_cases h64 : i < 64
    · have e1 : decide (i < 24 ∨ (40 ≤ i ∧ i < 64)) = true := by
        simp only [decide_eq_true_eq]; omega
      rw [e1, Bool.and_true]
    · have e1 : decide (i < 24 ∨ (40 ≤ i ∧ i < 64)) = false := by
        simp only [decide_eq_false_iff_not]; omega
      rw [e1, Bool.and_false, testBit_ge_64 p i hp (by omega)]

/-- Witness for C2 at `p = 0xDEADBEEFCAFE`, `v = 0x5A`, `a = 0x12`, `b = 0x34`:
the hypothesis `p < 2 ^ 64` holds and, e.g., bit 0 and bit 45 are preserved. -/
theorem C2_set_macros_touch_only_their_field_witness :
    (0xDEADBEEFCAFE : Nat) < 2 ^ 64 ∧
    (M6530_SET_DATA 0xDEADBEEFCAFE 0x5A).testBit 0 = (0xDEADBEEFCAFE : Nat).testBit 0 ∧
    (M6530_SET_PAB 0xDEADBEEFCAFE 0x12 0x34).testBit 45
      = (0xDEADBEEFCAFE : Nat).testBit 45 :=
  ⟨by decide,
   (C2_set_macros_touch_only_their_field 0xDEADBEEFCAFE 0x5A 0x12 0x34
      (by decide)).1 0 (by decide),
   (C2_set_macros_touch_only_their_field 0xDEADBEEFCAFE 0x5A 0x12 0x34
      (by decide)).2.2.2 45 (by decide)⟩

-- ## Claim C3: GET after SET returns the spliced value

/-- C3: for every pin vector `p` and every 8-bit value `v`, extracting a field
immediately after splicing it returns the spliced value exactly:
`M6530_GET_DATA` after `M6530_SET_DATA`, `M6530_GET_PA` after `M6530_SET_PA`,
and `M6530_GET_PB` after `M6530_SET_PB` all yield `v`. -/
theorem C3_get_after_set_roundtrip (p v : Nat) (hv : v < 256) :
    M6530_GET_DATA (M6530_SET_DATA p v) = v ∧
    M6530_GET_PA (M6530_SET_PA p v) = v ∧
    M6530_GET_PB (M6530_SET_PB p v) = v := by
  refine ⟨?_, ?_, ?_⟩
  · apply Nat.eq_of_testBit_eq
    intro j
    rw [M6530_GET_DATA, M6530_SET_DATA, show (256 : Nat) = 2 ^ 8 from rfl,
      Nat.testBit_mod_two_pow, Nat.testBit_shiftRight, Nat.testBit_or,
      Nat.testBit_and, testBit_notData, testBit_dataSplice]
    by_cases hj : j < 8
    · have e0 : decide (j < 8) = true := by simp only [decide_eq_true_eq]; exact hj
      have e1 : decide (16 + j < 16 ∨ (24 ≤ 16 + j ∧ 16 + j < 64)) = false := by
        simp only [decide_eq_false_iff_not]; omega
      have e2 : decide (16 ≤ 16 + j ∧ 16 + j < 24) = true := by
        simp only [decide_eq_true_eq]; omega
      rw [e0, e1, e2, Bool.and_false, Bool.true_and, Bool.true_and,
        Bool.false_or, show 16 + j - 16 = j from by omega]
    · have e0 : decide (j < 8) = false := by simp only [decide_eq_false_iff_not]; exact hj
      have hpow : (256 : Nat) ≤ 2 ^ j := by
        have h2 : (2 : Nat) ^ 8 ≤ 2 ^ j := Nat.pow_le_pow_right (by omega) (by omega)
        simpa using h2
      rw [e0, Bool.false_and,
        (Nat.testBit_lt_two_pow (lt_of_lt_of_le hv hpow) : v.testBit j = false)]
  · apply Nat.eq_of_testBit_eq
    intro j
    rw [M6530_GET_PA, M6530_SET_PA, show (256 : Nat) = 2 ^ 8 from rfl,
      Nat.testBit_mod_two_pow, Nat.testBit_shiftRight, Nat.testBit_or,
      Nat.testBit_and, testBit_notPA, testBit_byteSplice]
    by_cases hj : j < 8
    · have e0 : decide (j < 8) = true := by simp only [decide_eq_true_eq]; exact hj
      have e1 : decide (24 + j < 24 ∨ (32 ≤ 24 + j ∧ 24 + j < 64)) = false := by
        simp only [decide_eq_false_iff_not]; omega
      have e2 : decide (24 ≤ 24 + j ∧ 24 + j < 24 + 8) = true := by
        simp only [decide_eq_true_eq]; omega
      rw [e0, e1, e2, Bool.and_false, Bool.true_and, Bool.true_and,
        Bool.false_or, show 24 + j - 24 = j from by omega]
    · have e0 : decide (j < 8) = false := by simp only [decide_eq_false_iff_not]; exact hj
      have hpow : (256 : Nat) ≤ 2 ^ j := by
        have h2 : (2 : Nat) ^ 8 ≤ 2 ^ j := Nat.pow_le_pow_right (by omega) (by omega)
        simpa using h2
      rw [e0, Bool.false_and,
        (Nat.testBit_lt_two_pow (lt_of_lt_of_le hv hpow) : v.testBit j = false)]
  · apply Nat.eq_of_testBit_eq
    intro j
    rw [M6530_GET_PB, M6530_SET_PB, show (256 : Nat) = 2 ^ 8 from rfl,
      Nat.testBit_mod_two_pow, Nat.testBit_shiftRight, Nat.testBit_or,
      Nat.testBit_and, testBit_notPB, testBit_byteSplice]
    by_cases hj : j < 8
    · have e0 : decide (j < 8) = true := by simp only [decide_eq_true_eq]; exact hj
      have e1 : decide (32 + j < 32 ∨ (40 ≤ 32 + j ∧ 32 + j < 64)) = false := by
        simp only [decide_eq_false_iff_not]; omega
      have e2 : decide (32 ≤ 32 + j ∧ 32 + j < 32 + 8) = true := by
        simp only [decide_eq_true_eq]; omega
      rw [e0, e1, e2, Bool.and_false, Bool.true_and, Bool.true_and,
        Bool.false_or, show 32 + j - 32 = j from by omega]
    · have e0 : decide (j < 8) = false := by simp only [decide_eq_false_iff_not]; exact hj
      have hpow : (256 : Nat) ≤ 2 ^ j := by
        have h2 : (2 : Nat) ^ 8 ≤ 2 ^ j := Nat.pow_le_pow_right (by omega) (by omega)
        simpa using h2
      rw [e0, Bool.false_and,
        (Nat.testBit_lt_two_pow (lt_of_lt_of_le hv hpow) : v.testBit j = false)]

/-- Witness for C3 at `p = 0xDEADBEEFCAFE`, `v = 0xA7`. -/
theorem C3_get_after_set_roundtrip_witness :
    (0xA7 : Nat) < 256 ∧
    M6530_GET_DATA (M6530_SET_DATA 0xDEADBEEFCAFE 0xA7) = 0xA7 ∧
    M6530_GET_PA (M6530_SET_PA 0xDEADBEEFCAFE 0xA7) = 0xA7 ∧
    M6530_GET_PB (M6530_SET_PB 0xDEADBEEFCAFE 0xA7) = 0xA7 :=
  ⟨by decide,
   (C3_get_after_set_roundtrip 0xDEADBEEFCAFE 0xA7 (by decide)).1,
   (C3_get_after_set_roundtrip 0xDEADBEEFCAFE 0xA7 (by decide)).2.1,
   (C3_get_after_set_roundtrip 0xDEADBEEFCAFE 0xA7 (by decide)).2.2⟩

-- ## Chip state (m6530.h lines 219-261)

/-- I/O port state, `m6530_port_t` (m6530.h lines 219-230); `uint8_t` fields
as `Nat`. -/
structure m6530_port_t where
  inpr : Nat
  outr : Nat
  ddr : Nat
  pins : Nat
  c1_in : Bool
  c1_out : Bool
  c1_triggered : Bool
  c2_in : Bool
  c2_out : Bool
  c2_triggered : Bool

/-- Timer state, `m6530_timer_t` (m6530.h lines 233-243).  The fields `latch`,
`counter`, `t_bit`, `t_out` and `pip` come from the source struct.
Modelled from the spec: the header's implementation section is empty, and the
spec's Timer Unit (§4.3) needs recorded state beyond the declared struct —
the prescale divisor selected at write time ("the prescale divisor implied by
the addressed sub-register is recorded"), its count-up divider, and the
free-running-at-÷1 mode entered after underflow — added here as `prescale`,
`divider` and `freeRun`. -/
structure m6530_timer_t where
  latch : Nat
  counter : Nat
  t_bit : Bool
  t_out : Bool
  pip : Nat
  prescale : Nat
  divider : Nat
  freeRun : Bool

/-- Interrupt state, `m6530_int_t` (m6530.h lines 246-250). -/
structure m6530_int_t where
  ier : Nat
  ifr : Nat
  pip : Nat

/-- Chip state, `m6530_t` (m6530.h lines 253-261). -/
structure m6530_t where
  pa : m6530_port_t
  pb : m6530_port_t
  t1 : m6530_timer_t
  intr : m6530_int_t
  acr : Nat
  pcr : Nat
  pins : Nat

-- ## Spec-modelled operations (the CHIPS_IMPL section of the header is empty)

/-- Modelled from the spec: the missing implementation names a timer-underflow
interrupt source in `flag_mask`/`enable_mask` but fixes no bit index; the
MOS 6530 convention (timer flag read back in bit 7 of the interrupt flag
register) is used. -/
def M6530_TIMER_INT_BIT : Nat := 7

/-- Modelled from the spec (§4.3, missing `m6530_tick` timer path): the
prescale divider counts up each tick and the counter decrements when it
wraps; after underflow the timer free-runs at the ÷1 rate, so in `freeRun`
mode the decrement happens every tick. -/
def m6530_timer_dec (t : m6530_timer_t) : Bool :=
  t.freeRun || decide (t.prescale ≤ t.divider + 1)

/-- Modelled from the spec (§4.3): the underflow event is the transition of
`counter` from 0x0000 to 0xFFFF, i.e. a decrement fired while `counter = 0`. -/
def m6530_timer_underflow (t : m6530_timer_t) : Bool :=
  m6530_timer_dec t && decide (t.counter = 0)

/-- Modelled from the spec (§4.3, missing `m6530_tick` timer path): one tick of
the free-running Timer Unit with no register access.  On underflow `t_bit`
flips, `t_out` pulses for this tick, and the timer enters the ÷1 free-run
mode; the counter wraps from 0x0000 to 0xFFFF and is never reloaded from
`latch`.  The merged delay pipeline `pip` is shifted exactly once per tick. -/
def m6530_timer_tick (t : m6530_timer_t) : m6530_timer_t :=
  let dec := m6530_timer_dec t
  let uf := m6530_timer_underflow t
  { t with
    divider := if dec then 0 else t.divider + 1
    counter := if dec then (t.counter + 0xFFFF) % 0x10000 else t.counter
    t_bit := if uf then !t.t_bit else t.t_bit
    t_out := uf
    freeRun := t.freeRun || uf
    pip := t.pip >>> 1 }

/-- Modelled from the spec (§4.5, missing `m6530_tick` interrupt path): every
tick the delay pipeline is advanced by one position (bit 0 drops into "now"
and sets the timer flag in `ifr`), and this tick's trigger condition is
scheduled to fire on the next tick — a flag is never asserted in the same
tick as the underlying event.  Port control-line edge sources are left out:
the spec (§9) records that their contribution could not be determined. -/
def m6530_int_tick (i : m6530_int_t) (timerTrigger : Bool) : m6530_int_t :=
  { ier := i.ier
    ifr := if i.pip.testBit 0 then i.ifr ||| (1 <<< M6530_TIMER_INT_BIT) else i.ifr
    pip := (i.pip >>> 1) ||| (if timerTrigger then 1 else 0) }

/-- Modelled from the spec (§4.4/§3, missing register-read path): a read of a
port data register returns the effective pins,
`(output_register & direction) | (input_level & ~direction)`, with the
`uint8_t` complement of `direction` written as `ddr ^^^ 0xFF`. -/
def m6530_read_port (p : m6530_port_t) : Nat :=
  (p.outr &&& p.ddr) ||| (p.inpr &&& (p.ddr ^^^ 0xFF))

/-- Modelled from the spec (§4.6/§6, missing `m6530_tick`): one tick with no
register access — selection only gates the register pathway, the free-running
sub-machines always advance.  The input levels are latched from the incoming
pin vector, the timer and the interrupt pipeline advance, the effective port
pins are recomputed, and the returned vector carries the port bytes and the
interrupt bit, which reflects `(enable_mask & flag_mask) != 0` evaluated after
the pipeline advance. -/
def m6530_tick (c : m6530_t) (pins : Nat) : m6530_t × Nat :=
  let pa0 := { c.pa with inpr := M6530_GET_PA pins }
  let pb0 := { c.pb with inpr := M6530_GET_PB pins }
  let t1 := m6530_timer_tick c.t1
  let intr := m6530_int_tick c.intr (m6530_timer_underflow c.t1)
  let paEff := m6530_read_port pa0
  let pbEff := m6530_read_port pb0
  let outPins0 := M6530_SET_PAB pins paEff pbEff
  let outPins :=
    if (intr.ier &&& intr.ifr) ≠ 0 then outPins0 ||| (1 <<< M6530_PIN_IRQ)
    else outPins0 &&& 0xFFFFF7FFFFFFFFFF
  ({ pa := { pa0 with pins := paEff }, pb := { pb0 with pins := pbEff },
     t1 := t1, intr := intr, acr := c.acr, pcr := c.pcr, pins := outPins },
   outPins)

/-- Modelled from the spec (§3 Lifecycle / §6, missing `m6530_reset`): reset
returns every sub-state to its power-on-equivalent default — registers
zeroed, direction registers zeroed (all-input), counters and pipelines
cleared, interrupt flags cleared — irrespective of the previous state.  The
recorded prescale divisor defaults to ÷1. -/
def m6530_reset (_c : m6530_t) : m6530_t :=
  { pa := ⟨0, 0, 0, 0, false, false, false, false, false, false⟩
    pb := ⟨0, 0, 0, 0, false, false, false, false, false, false⟩
    t1 := ⟨0, 0, false, false, 0, 1, 0, false⟩
    intr := ⟨0, 0, 0⟩
    acr := 0
    pcr := 0
    pins := 0 }

-- ## Claim C1: port read composition

/-- C1: for every port with direction register `D`, output register `O` and
externally supplied input level `I` (all bytes), a read of the port's data
register returns exactly `(O & D) | (I & ~D)`; with `D = 0xFF` it returns `O`
regardless of `I`, and with `D = 0x00` it returns `I` regardless of any prior
write to the output register. -/
theorem C1_port_read_composition (port : m6530_port_t)
    (hO : port.outr < 256) (hI : port.inpr < 256) :
    m6530_read_port port
      = (port.outr &&& port.ddr) ||| (port.inpr &&& (port.ddr ^^^ 0xFF)) ∧
    (port.ddr = 0xFF → m6530_read_port port = port.outr) ∧
    (port.ddr = 0x00 → m6530_read_port port = port.inpr) := by
  refine ⟨rfl, fun hD => ?_, fun hD => ?_⟩
  · rw [m6530_read_port, hD, show (0xFF : Nat) ^^^ 0xFF = 0 from by decide,
      Nat.and_zero, Nat.or_zero,
      show (0xFF : Nat) = 2 ^ 8 - 1 from rfl, Nat.and_pow_two_sub_one_eq_mod,
      Nat.mod_eq_of_lt hO]
  · rw [m6530_read_port, hD, Nat.and_zero, Nat.zero_or,
      show (0x00 : Nat) ^^^ 0xFF = 2 ^ 8 - 1 from by decide,
      Nat.and_pow_two_sub_one_eq_mod, Nat.mod_eq_of_lt hI]

/-- Witness for C1: a port with `O = 0xC3`, `D = 0xF0`, `I = 0x1D` reads back
`0xCD`, and the two all-output / all-input corner cases. -/
theorem C1_port_read_composition_witness :
    (0xC3 : Nat) < 256 ∧ (0x1D : Nat) < 256 ∧
    m6530_read_port ⟨0x1D, 0xC3, 0xF0, 0, false, false, false, false, false, false⟩
      = ((0xC3 : Nat) &&& 0xF0) ||| ((0x1D : Nat) &&& ((0xF0 : Nat) ^^^ 0xFF)) ∧
    m6530_read_port ⟨0x1D, 0xC3, 0xFF, 0, false, false, false, false, false, false⟩
      = 0xC3 ∧
    m6530_read_port ⟨0x1D, 0xC3, 0x00, 0, false, false, false, false, false, false⟩
      = 0x1D :=
  ⟨by decide, by decide,
   (C1_port_read_composition
      ⟨0x1D, 0xC3, 0xF0, 0, false, false, false, false, false, false⟩
      (by decide) (by decide)).1,
   (C1_port_read_composition
      ⟨0x1D, 0xC3, 0xFF, 0, false, false, false, false, false, false⟩
      (by decide) (by decide)).2.1 rfl,
   (C1_port_read_composition
      ⟨0x1D, 0xC3, 0x00, 0, false, false, false, false, false, false⟩
      (by decide) (by decide)).2.2 rfl⟩

-- ## Claim C7: reset idempotence and power-on defaults

/-- C7: calling `reset` twice in succession yields a state identical to
calling it once, and the state after `reset` has all registers zeroed,
direction registers zeroed (all-input), counters and delay pipelines cleared,
and interrupt flags cleared. -/
theorem C7_reset_idempotent_and_default (c : m6530_t) :
    m6530_reset (m6530_reset c) = m6530_reset c ∧
    (m6530_reset c).pa.outr = 0 ∧ (m6530_reset c).pa.ddr = 0 ∧
    (m6530_reset c).pa.inpr = 0 ∧ (m6530_reset c).pa.pins = 0 ∧
    (m6530_reset c).pb.outr = 0 ∧ (m6530_reset c).pb.ddr = 0 ∧
    (m6530_reset c).pb.inpr = 0 ∧ (m6530_reset c).pb.pins = 0 ∧
    (m6530_reset c).t1.counter = 0 ∧ (m6530_reset c).t1.latch = 0 ∧
    (m6530_reset c).t1.divider = 0 ∧ (m6530_reset c).t1.pip = 0 ∧
    (m6530_reset c).intr.pip = 0 ∧ (m6530_reset c).intr.ifr = 0 ∧
    (m6530_reset c).intr.ier = 0 ∧
    (m6530_reset c).acr = 0 ∧ (m6530_reset c).pcr = 0 ∧
    (m6530_reset c).pins = 0 :=
  ⟨rfl, rfl, rfl, rfl, rfl, rfl, rfl, rfl, rfl, rfl, rfl, rfl, rfl, rfl, rfl,
   rfl, rfl, rfl, rfl⟩

-- ## Tick-level helper lemmas

/-- The interrupt sub-state after a tick is the advanced interrupt state. -/
theorem m6530_tick_intr (c : m6530_t) (pins : Nat) :
    (m6530_tick c pins).1.intr
      = m6530_int_tick c.intr (m6530_timer_underflow c.t1) := rfl

/-- The timer sub-state after a tick is the advanced timer state. -/
theorem m6530_tick_t1 (c : m6530_t) (pins : Nat) :
    (m6530_tick c pins).1.t1 = m6530_timer_tick c.t1 := rfl

/-- Shape of the pin vector returned by a tick. -/
theorem m6530_tick_snd (c : m6530_t) (pins : Nat) :
    (m6530_tick c pins).2 =
      (if ((m6530_int_tick c.intr (m6530_timer_underflow c.t1)).ier &&&
            (m6530_int_tick c.intr (m6530_timer_underflow c.t1)).ifr) ≠ 0
       then M6530_SET_PAB pins
              (m6530_read_port { c.pa with inpr := M6530_GET_PA pins })
              (m6530_read_port { c.pb with inpr := M6530_GET_PB pins })
            ||| (1 <<< M6530_PIN_IRQ)
       else M6530_SET_PAB pins
              (m6530_read_port { c.pa with inpr := M6530_GET_PA pins })
              (m6530_read_port { c.pb with inpr := M6530_GET_PB pins })
            &&& 0xFFFFF7FFFFFFFFFF) := rfl

/-- The IRQ bit of the spliced outgoing vector decides the asserting
condition, whichever branch was taken. -/
theorem irq_splice_testBit (x : Nat) (P : Prop) [Decidable P] :
    (if P then x ||| (1 <<< M6530_PIN_IRQ) else x &&& 0xFFFFF7FFFFFFFFFF).testBit
      M6530_PIN_IRQ = decide P := by
  by_cases h : P
  · rw [if_pos h, decide_eq_true h, Nat.testBit_or,
      show Nat.testBit (1 <<< M6530_PIN_IRQ) M6530_PIN_IRQ = true from by decide,
      Bool.or_true]
  · rw [if_neg h, decide_eq_false h, Nat.testBit_and,
      show Nat.testBit 0xFFFFF7FFFFFFFFFF M6530_PIN_IRQ = false from by decide,
      Bool.and_false]

-- ## Claim C4: interrupt pin reflects enabled flags after the pipeline advance

/-- C4: after every tick, the interrupt-request bit in the returned pin vector
is asserted iff `(enable_mask & flag_mask) != 0`, evaluated after the
interrupt delay pipeline has been advanced for that tick; and changing
`enable_mask` with `flag_mask` fixed changes the interrupt pin's next-tick
value without modifying `flag_mask`. -/
theorem C4_irq_pin_iff_enabled_flags (c : m6530_t) (pins e : Nat) :
    ((m6530_tick c pins).2.testBit M6530_PIN_IRQ
      = decide (((m6530_tick c pins).1.intr.ier &&&
          (m6530_tick c pins).1.intr.ifr) ≠ 0)) ∧
    ((m6530_tick { c with intr := { c.intr with ier := e } } pins).1.intr.ifr
      = (m6530_tick c pins).1.intr.ifr) ∧
    ((m6530_tick { c with intr := { c.intr with ier := e } } pins).2.testBit
        M6530_PIN_IRQ
      = decide ((e &&& (m6530_tick c pins).1.intr.ifr) ≠ 0)) := by
  refine ⟨?_, rfl, ?_⟩
  · rw [m6530_tick_snd]; exact irq_splice_testBit _ _
  · rw [m6530_tick_snd]; exact irq_splice_testBit _ _

-- ## Concrete chip states used by the witnesses

/-- An all-zero port. -/
def m6530_test_port : m6530_port_t :=
  ⟨0, 0, 0, 0, false, false, false, false, false, false⟩

/-- A chip whose free-running ÷1 timer is about to underflow
(`counter = 0`), with clean interrupt state. -/
def m6530_test_chip_uf : m6530_t :=
  ⟨m6530_test_port, m6530_test_port,
   ⟨0x1234, 0, false, false, 0, 1, 0, true⟩, ⟨0xFF, 0, 0⟩, 0, 0, 0⟩

-- ## Claim C5: the timer flag is visible exactly one tick after underflow

/-- C5: the timer interrupt flag never becomes visible in the same tick as the
counter's 0x0000-to-0xFFFF transition, and it becomes visible exactly one
tick after the tick in which that transition occurred: if the underflow fires
this tick and no timer flag is pending, the flag register still has the timer
bit clear after this tick and has it set after the next tick. -/
theorem C5_timer_flag_visible_one_tick_late (c : m6530_t) (pins pins2 : Nat)
    (huf : m6530_timer_underflow c.t1 = true)
    (hifr : c.intr.ifr.testBit M6530_TIMER_INT_BIT = false)
    (hpip : c.intr.pip.testBit 0 = false) :
    (m6530_tick c pins).1.intr.ifr.testBit M6530_TIMER_INT_BIT = false ∧
    (m6530_tick (m6530_tick c pins).1 pins2).1.intr.ifr.testBit
      M6530_TIMER_INT_BIT = true := by
  constructor
  · have h2 : (m6530_tick c pins).1.intr.ifr = c.intr.ifr := by
      rw [m6530_tick_intr]; simp [m6530_int_tick, hpip]
    rw [h2]; exact hifr
  · have h4 : (m6530_tick c pins).1.intr.pip = (c.intr.pip >>> 1) ||| 1 := by
      rw [m6530_tick_intr]; simp [m6530_int_tick, huf]
    have h5 : (m6530_tick c pins).1.intr.pip.testBit 0 = true := by
      rw [h4, Nat.testBit_or, Nat.testBit_one_zero, Bool.or_true]
    rw [m6530_tick_intr]
    have h6 : (m6530_int_tick (m6530_tick c pins).1.intr
        (m6530_timer_underflow (m6530_tick c pins).1.t1)).ifr
        = (m6530_tick c pins).1.intr.ifr ||| (1 <<< M6530_TIMER_INT_BIT) := by
      simp [m6530_int_tick, h5]
    rw [h6, Nat.testBit_or,
      show Nat.testBit (1 <<< M6530_TIMER_INT_BIT) M6530_TIMER_INT_BIT = true
        from by decide,
      Bool.or_true]

/-- Witness for C5 on the concrete underflowing chip. -/
theorem C5_timer_flag_visible_one_tick_late_witness :
    m6530_timer_underflow m6530_test_chip_uf.t1 = true ∧
    (m6530_tick m6530_test_chip_uf 0).1.intr.ifr.testBit M6530_TIMER_INT_BIT
      = false ∧
    (m6530_tick (m6530_tick m6530_test_chip_uf 0).1 0).1.intr.ifr.testBit
      M6530_TIMER_INT_BIT = true :=
  ⟨by decide,
   (C5_timer_flag_visible_one_tick_late m6530_test_chip_uf 0 0
      (by decide) (by decide) (by decide)).1,
   (C5_timer_flag_visible_one_tick_late m6530_test_chip_uf 0 0
      (by decide) (by decide) (by decide)).2⟩

-- ## Claim C6: the counter free-runs past zero instead of reloading

/-- C6: after the timer counter underflows, for every subsequent tick with no
write to a timer register, the counter continues decrementing from 0xFFFF at
the ÷1 rate rather than being reloaded from `latch`: the underflow tick
leaves the counter at 0xFFFF in free-run mode, and every tick taken in
free-run mode decrements the counter by exactly one (mod 2^16), keeps the
latch unchanged and stays in free-run mode. -/
theorem C6_free_run_past_zero (c : m6530_t) (pins : Nat) :
    (m6530_timer_underflow c.t1 = true →
      (m6530_tick c pins).1.t1.freeRun = true ∧
      (m6530_tick c pins).1.t1.counter = 0xFFFF ∧
      (m6530_tick c pins).1.t1.latch = c.t1.latch) ∧
    (c.t1.freeRun = true →
      (m6530_tick c pins).1.t1.counter = (c.t1.counter + 0xFFFF) % 0x10000 ∧
      (m6530_tick c pins).1.t1.latch = c.t1.latch ∧
      (m6530_tick c pins).1.t1.freeRun = true) := by
  constructor
  · intro huf
    have hdec : m6530_timer_dec c.t1 = true := by
      have h := huf
      rw [m6530_timer_underflow, Bool.and_eq_true] at h
      exact h.1
    have hcnt : c.t1.counter = 0 := by
      have h := huf
      rw [m6530_timer_underflow, Bool.and_eq_true, decide_eq_true_eq] at h
      exact h.2
    refine ⟨?_, ?_, ?_⟩
    · rw [m6530_tick_t1]; simp [m6530_timer_tick, huf]
    · rw [m6530_tick_t1]; simp [m6530_timer_tick, hdec, hcnt]
    · rw [m6530_tick_t1]; simp [m6530_timer_tick]
  · intro hfr
    have hdec : m6530_timer_dec c.t1 = true := by
      rw [m6530_timer_dec, hfr, Bool.true_or]
    refine ⟨?_, ?_, ?_⟩
    · rw [m6530_tick_t1]; simp [m6530_timer_tick, hdec]
    · rw [m6530_tick_t1]; simp [m6530_timer_tick]
    · rw [m6530_tick_t1]; simp [m6530_timer_tick, hfr]

/-- Witness for C6 on the concrete underflowing chip. -/
theorem C6_free_run_past_zero_witness :
    m6530_timer_underflow m6530_test_chip_uf.t1 = true ∧
    m6530_test_chip_uf.t1.freeRun = true ∧
    ((m6530_tick m6530_test_chip_uf 0).1.t1.freeRun = true ∧
     (m6530_tick m6530_test_chip_uf 0).1.t1.counter = 0xFFFF ∧
     (m6530_tick m6530_test_chip_uf 0).1.t1.latch = m6530_test_chip_uf.t1.latch) ∧
    ((m6530_tick m6530_test_chip_uf 0).1.t1.counter
       = (m6530_test_chip_uf.t1.counter + 0xFFFF) % 0x10000 ∧
     (m6530_tick m6530_test_chip_uf 0).1.t1.latch = m6530_test_chip_uf.t1.latch ∧
     (m6530_tick m6530_test_chip_uf 0).1.t1.freeRun = true) :=
  ⟨by decide, by decide,
   (C6_free_run_past_zero m6530_test_chip_uf 0).1 (by decide),
   (C6_free_run_past_zero m6530_test_chip_uf 0).2 (by decide)⟩

-- ## Claim C8: pin-vector layout

/-- C8: the pin layout constants satisfy the declared layout — the address
bits occupy a contiguous low range starting at 0, the data bus occupies one
contiguous byte, port A and port B each occupy one contiguous byte, the
chip-select pair occupies two designated distinct single bits, and the
interrupt-line bit position lies outside the byte ranges occupied by port A,
port B, and the data bus. -/
theorem C8_pin_layout :
    (M6530_PIN_A0 = 0 ∧
     M6530_PIN_A1 = M6530_PIN_A0 + 1 ∧ M6530_PIN_A2 = M6530_PIN_A1 + 1 ∧
     M6530_PIN_A3 = M6530_PIN_A2 + 1 ∧ M6530_PIN_A4 = M6530_PIN_A3 + 1 ∧
     M6530_PIN_A5 = M6530_PIN_A4 + 1 ∧ M6530_PIN_A6 = M6530_PIN_A5 + 1 ∧
     M6530_PIN_A7 = M6530_PIN_A6 + 1 ∧ M6530_PIN_A8 = M6530_PIN_A7 + 1 ∧
     M6530_PIN_A9 = M6530_PIN_A8 + 1) ∧
    (M6530_PIN_D1 = M6530_PIN_D0 + 1 ∧ M6530_PIN_D2 = M6530_PIN_D1 + 1 ∧
     M6530_PIN_D3 = M6530_PIN_D2 + 1 ∧ M6530_PIN_D4 = M6530_PIN_D3 + 1 ∧
     M6530_PIN_D5 = M6530_PIN_D4 + 1 ∧ M6530_PIN_D6 = M6530_PIN_D5 + 1 ∧
     M6530_PIN_D7 = M6530_PIN_D6 + 1 ∧ M6530_PIN_D7 = M6530_PIN_D0 + 7) ∧
    (M6530_PIN_PA1 = M6530_PIN_PA0 + 1 ∧ M6530_PIN_PA2 = M6530_PIN_PA1 + 1 ∧
     M6530_PIN_PA3 = M6530_PIN_PA2 + 1 ∧ M6530_PIN_PA4 = M6530_PIN_PA3 + 1 ∧
     M6530_PIN_PA5 = M6530_PIN_PA4 + 1 ∧ M6530_PIN_PA6 = M6530_PIN_PA5 + 1 ∧
     M6530_PIN_PA7 = M6530_PIN_PA6 + 1 ∧ M6530_PIN_PA7 = M6530_PIN_PA0 + 7) ∧
    (M6530_PIN_PB1 = M6530_PIN_PB0 + 1 ∧ M6530_PIN_PB2 = M6530_PIN_PB1 + 1 ∧
     M6530_PIN_PB3 = M6530_PIN_PB2 + 1 ∧ M6530_PIN_PB4 = M6530_PIN_PB3 + 1 ∧
     M6530_PIN_PB5 = M6530_PIN_PB4 + 1 ∧ M6530_PIN_PB6 = M6530_PIN_PB5 + 1 ∧
     M6530_PIN_PB7 = M6530_PIN_PB6 + 1 ∧ M6530_PIN_PB7 = M6530_PIN_PB0 + 7) ∧
    (M6530_PIN_CS1 ≠ M6530_PIN_CS2) ∧
    (¬(M6530_PIN_D0 ≤ M6530_PIN_IRQ ∧ M6530_PIN_IRQ ≤ M6530_PIN_D7)) ∧
    (¬(M6530_PIN_PA0 ≤ M6530_PIN_IRQ ∧ M6530_PIN_IRQ ≤ M6530_PIN_PA7)) ∧
    (¬(M6530_PIN_PB0 ≤ M6530_PIN_IRQ ∧ M6530_PIN_IRQ ≤ M6530_PIN_PB7)) := by
  decide

-- ## Claim C9: the documented delay-pipeline ranges in the timer pip field

/-- Documented bit indices of the 2-cycle counter-active delay pipeline in
`m6530_timer_t.pip`: the comment (m6530.h lines 238-241) assigns it
"bits 0..7". -/
def m6530_timer_pip_counter_active_bits : List Nat := List.range 8

/-- Documented bit indices of the 1-cycle force-load delay pipeline in
`m6530_timer_t.pip`: the comment (m6530.h lines 238-241) assigns it
"bits 8..16", read inclusively like the companion range "bits 0..7". -/
def m6530_timer_pip_force_load_bits : List Nat :=
  (List.range 9).map (fun k => k + 8)

/-- Bit width of the `pip` field: the struct declares `uint16_t pip`. -/
def m6530_timer_pip_bit_width : Nat := 16

/-- C9 (code bug): the two documented latency classes do occupy disjoint bit
ranges, and every counter-active bit lies within the 16-bit `pip` field, but
the documented force-load range "bits 8..16" includes bit index 16, which
does not exist in a `uint16_t` — the comment contradicts the declared field
width. -/
theorem C9_pip_ranges_disjoint_but_force_load_overflows :
    (∀ b ∈ m6530_timer_pip_counter_active_bits,
      b ∉ m6530_timer_pip_force_load_bits) ∧
    (∀ b ∈ m6530_timer_pip_counter_active_bits,
      b < m6530_timer_pip_bit_width) ∧
    (16 ∈ m6530_timer_pip_force_load_bits ∧
      ¬(16 < m6530_timer_pip_bit_width)) := by
  decide

-- ## Claim C10: pin mask constants

/-- C10 (code bug): `M6530_DB_PINS` does equal the bitwise OR of the eight
data-bus masks `M6530_D0`..`M6530_D7`; but the companion identities for
`M6530_RS0`, `M6530_CS1` and `M6530_CS2` fail in the source, whose macro
bodies read `(1ULL<<6530_PIN_RS0)` etc. — the `M` prefix of the position
constant is missing, so the expansion contains the ill-formed token
`6530_PIN_RS0` and does not compile, let alone equal
`1 << M6530_PIN_RS0`.  Those three masks therefore have no embedding here. -/
theorem C10_db_pins_is_or_of_data_masks :
    M6530_DB_PINS = M6530_D0 ||| M6530_D1 ||| M6530_D2 ||| M6530_D3 |||
      M6530_D4 ||| M6530_D5 ||| M6530_D6 ||| M6530_D7 := by
  decide
